import Mathlib

/-!
Verification of the provider-fallback orchestration of the Meeting-Summarizer
repository (src/main.py, src/summarizer.py).

The Python source is shallowly embedded: pure string manipulation is
translated directly; every interaction with the outside world (the process
environment, the Google generative-ai library, outbound HTTP requests, and
`time.sleep`) is abstracted by an explicit oracle argument, so each adapter
and the orchestrator become total functions of the transcript and of those
oracles.  Counters are threaded where a claim speaks about the number of
provider invocations or sleeps performed.
-/

/- ### Python string primitives used by the source -/

/-- ASCII lowering of one character; models Python `str.lower` on the ASCII
strings that appear in the source and in the marker phrases. -/
def lowerChar (c : Char) : Char :=
  if 'A' ≤ c && c ≤ 'Z' then Char.ofNat (c.toNat + 32) else c

/-- Models Python `str.lower` (ASCII range). -/
def lowerStr (s : String) : String :=
  String.mk (s.toList.map lowerChar)

/-- `startsWithChars pat l` is true when `pat` is an initial segment of `l`. -/
def startsWithChars : List Char → List Char → Bool
  | [], _ => true
  | _ :: _, [] => false
  | a :: as, b :: bs => a = b && startsWithChars as bs

/-- `occursInChars pat l` is true when `pat` occurs contiguously inside `l`;
models Python's `pat in s` substring test. -/
def occursInChars (pat : List Char) : List Char → Bool
  | [] => startsWithChars pat []
  | c :: cs => startsWithChars pat (c :: cs) || occursInChars pat cs

/-- Models Python `pat in s` (substring containment). -/
def containsSub (s pat : String) : Bool :=
  occursInChars pat.toList s.toList

/-- The characters Python `str.strip` / `str.split` treat as whitespace
(ASCII range): space, tab, newline, carriage return, vertical tab, form feed. -/
def pyIsSpace (c : Char) : Bool :=
  c = ' ' || c = '\t' || c = '\n' || c = '\r' || c = '\x0b' || c = '\x0c'

/-- Models Python `s.strip()` with no arguments (ASCII whitespace). -/
def pyStrip (s : String) : String :=
  String.mk (((s.toList.dropWhile pyIsSpace).reverse.dropWhile pyIsSpace).reverse)

/-- Accumulator loop behind `pySplit`: collects maximal runs of
non-whitespace characters. -/
def splitWsGo : List Char → List Char → List (List Char)
  | [], acc => if acc.isEmpty then [] else [acc.reverse]
  | c :: cs, acc =>
      if pyIsSpace c then
        (if acc.isEmpty then splitWsGo cs [] else acc.reverse :: splitWsGo cs [])
      else splitWsGo cs (c :: acc)

/-- Models Python `s.split()` with no arguments: the maximal whitespace-free
runs of `s`, with no empty pieces. -/
def pySplit (s : String) : List String :=
  (splitWsGo s.toList []).map String.mk

/- ### Quota/error classifier (src/summarizer.py lines 39-44) -/

/-- The marker phrases of `is_quota_error` (src/summarizer.py line 43). -/
def quota_indicators : List String :=
  ["quota", "exceeded", "429", "rate limit", "limit exceeded"]

/-- Translation of `is_quota_error` (src/summarizer.py lines 39-44).  A
Python value that may be `None` or a string is embedded as `Option String`;
Python's `if not result` is false for `None` and for the empty string. -/
def is_quota_error (result : Option String) : Bool :=
  match result with
  | none => false
  | some s =>
      if s = "" then false
      else quota_indicators.any (fun ind => containsSub (lowerStr s) ind)

/- ### Local fallback generator (src/summarizer.py lines 286-317) -/

/-- Renders `num / den` to one decimal place with round-half-to-even; models
Python's `f"{num / den:.1f}"` for the values at which the intermediate IEEE
double is exact (all uses in this development divide by 200 at such values). -/
def formatFixed1 (num den : Nat) : String :=
  let a := num * 10
  let q := a / den
  let r := a % den
  let tenths :=
    if 2 * r < den then q
    else if den < 2 * r then q + 1
    else if q % 2 = 0 then q else q + 1
  toString (tenths / 10) ++ "." ++ toString (tenths % 10)

/-- Fixed template text of the demo report before the first interpolation. -/
def demoPart1 : String :=
  "\n## 📋 Meeting Summary (Demo Mode)\n\n**Transcript Length:** "

/-- Fixed template text between the two word-count interpolations. -/
def demoPart2 : String :=
  " words\n\n**Summary:**\nThis is a demo summary of your meeting transcript. The actual AI-powered summarization requires a valid API key and available quota.\n\n**Key Points:**\n- Meeting transcript contains "

/-- Fixed template text between the second word count and the reading time. -/
def demoPart3 : String :=
  " words\n- To get real AI summarization, ensure your API key is valid and has available quota\n- Current mode: Demo/Testing due to quota limits\n\n**Action Items:**\n- Check your API key status\n- Consider using multiple API keys or alternative providers\n- The AI will then provide detailed meeting analysis\n\n**Estimated Reading Time:** "

/-- Fixed template text after the reading-time interpolation. -/
def demoPart4 : String := " minutes\n"

/-- The f-string `demo_summary` of `process_transcript_demo`
(src/summarizer.py lines 296-315), as a function of `word_count`. -/
def demoReport (word_count : Nat) : String :=
  demoPart1 ++ toString word_count ++ demoPart2 ++ toString word_count ++
    demoPart3 ++ formatFixed1 word_count 200 ++ demoPart4

/-- Translation of `process_transcript_demo` (src/summarizer.py lines
286-317): on a blank transcript a short prompt string, otherwise the fixed
template report over `word_count = len(transcript.split())`. -/
def process_transcript_demo (transcript : String) : String :=
  if pyStrip transcript = "" then
    "Please provide a transcript to summarize."
  else
    demoReport (pySplit transcript).length

/- ### Orchestrator (src/summarizer.py lines 12-37) -/

/-- Outcome of one adapter invocation as observed by the orchestrator's
`try` block: a returned value (`None` or a string), or a raised exception. -/
inductive PResult where
  | ok (val : Option String)
  | exn
deriving DecidableEq

/-- Python truthiness of an adapter's returned value: `None` and the empty
string are falsy. -/
def truthyOpt : Option String → Bool
  | none => false
  | some s => s ≠ ""

/-- The returned value of an outcome (an exception carries no value). -/
def resultValue : PResult → Option String
  | PResult.ok v => v
  | PResult.exn => none

/-- An outcome the orchestrator accepts: a returned value that is truthy and
not classified as a quota condition (src/summarizer.py line 26). -/
def usableOutcome : PResult → Bool
  | PResult.ok v => truthyOpt v && !is_quota_error v
  | PResult.exn => false

/-- Translation of the provider loop of `process_transcript`
(src/summarizer.py lines 22-34), instrumented with the number of adapter
invocations performed.  Returns `(some result, count)` when a provider's
result is returned from inside the loop, and `(none, count)` when the loop
runs to completion; an exception or a non-usable value advances the loop
(both non-`return` paths of the Python loop body continue). -/
def runLoopTrace (t : String) : List (String → PResult) → Option String × Nat
  | [] => (none, 0)
  | f :: fs =>
      match f t with
      | PResult.exn => ((runLoopTrace t fs).1, (runLoopTrace t fs).2 + 1)
      | PResult.ok v =>
          if truthyOpt v && !is_quota_error v then (v, 1)
          else ((runLoopTrace t fs).1, (runLoopTrace t fs).2 + 1)

/-- The behaviors of the four hosted adapters for one orchestration pass.
Each adapter wraps network and library calls, so its outcome (value returned
or exception raised) is supplied as an oracle. -/
structure ProviderBehavior where
  google : String → PResult
  openai : String → PResult
  anthropic : String → PResult
  huggingface : String → PResult

/-- The fifth entry of the provider list: `process_transcript_demo` itself,
which always returns a string and never raises. -/
def demoProvider : String → PResult :=
  fun t => PResult.ok (some (process_transcript_demo t))

/-- The ordered provider list of `process_transcript`
(src/summarizer.py lines 14-20). -/
def providersOf (B : ProviderBehavior) : List (String → PResult) :=
  [B.google, B.openai, B.anthropic, B.huggingface, demoProvider]

/-- Translation of `process_transcript` (src/summarizer.py lines 12-37):
run the provider loop; if it completes without returning, fall back to
`process_transcript_demo` (line 37). -/
def process_transcript (B : ProviderBehavior) (t : String) : String :=
  match (runLoopTrace t (providersOf B)).1 with
  | some s => s
  | none => process_transcript_demo t

/-- Modelled from the spec: the Orchestrator "iterates the ordered adapter
list, invoking each in turn until one returns a usable result".  Refinement
target for the loop: the value of the first provider with a usable outcome. -/
def firstUsable (t : String) : List (String → PResult) → Option String
  | [] => none
  | f :: fs =>
      if usableOutcome (f t) then resultValue (f t) else firstUsable t fs

/- ### Environment / credential enumeration (src/summarizer.py lines 221-240) -/

/-- The process environment as a finite association list; `envGet` models
`os.getenv` (first binding wins, absent name gives `None`). -/
def envGet (env : List (String × String)) (name : String) : Option String :=
  match env.find? (fun p => p.1 == name) with
  | some p => some p.2
  | none => none

/-- The `while True` suffix scan of `get_multiple_api_keys`
(src/summarizer.py lines 231-238), embedded with explicit fuel.  Starting at
index `i`, a set and non-empty value of `NAME_i` is collected and the scan
moves to `i + 1`; an absent or empty value stops the scan.  The caller
passes fuel `env.length + 1`, which always suffices: each collected key
consumes one entry of the finite environment, so the scan stops before the
fuel does. -/
def collectSuffixKeys (env : List (String × String)) (base : String) :
    Nat → Nat → List String
  | 0, _ => []
  | fuel + 1, i =>
      match envGet env (base ++ "_" ++ toString i) with
      | some k =>
          if k = "" then []
          else k :: collectSuffixKeys env base fuel (i + 1)
      | none => []

/-- Translation of `get_multiple_api_keys` (src/summarizer.py lines
221-240): the base name's value when set and truthy, followed by the
contiguous `NAME_1, NAME_2, ...` scan. -/
def get_multiple_api_keys (env : List (String × String)) (base : String) :
    List String :=
  (match envGet env base with
   | some k => if k = "" then [] else [k]
   | none => []) ++ collectSuffixKeys env base (env.length + 1) 1

/- ### Google Gemini adapter (src/summarizer.py lines 46-90) -/

/-- Outcome of one Gemini generation call for one API key: the `.text` of a
successful response, or the message of a raised exception (quota errors and
all other library/network errors arrive this way). -/
inductive GemOutcome where
  | text (s : String)
  | err (msg : String)
deriving DecidableEq

/-- The diagnostic string returned when every Google key is exhausted
(src/summarizer.py line 90). -/
def geminiExhaustedMsg : String :=
  "❌ All Google API keys have quota exceeded. Trying other providers..."

/-- The key loop of `try_google_gemini` (src/summarizer.py lines 50-90).
`net j` is the outcome of the generation call made for the key at position
`j` of the key list.  A falsy key is skipped; a successful response with
truthy text is returned immediately; an exception — whether its message
matches the quota pattern (line 83) or not (line 86) — advances to the next
key; an exhausted list yields the diagnostic string. -/
def try_google_gemini_go (net : Nat → GemOutcome) :
    List String → Nat → Option String
  | [], _ => some geminiExhaustedMsg
  | key :: rest, i =>
      if key = "" then try_google_gemini_go net rest (i + 1)
      else
        match net i with
        | GemOutcome.text s =>
            if s ≠ "" then some s
            else try_google_gemini_go net rest (i + 1)
        | GemOutcome.err msg =>
            if containsSub msg "429" && containsSub (lowerStr msg) "quota" then
              try_google_gemini_go net rest (i + 1)
            else
              try_google_gemini_go net rest (i + 1)

/-- Translation of `try_google_gemini` (src/summarizer.py lines 46-90). -/
def try_google_gemini (env : List (String × String)) (net : Nat → GemOutcome)
    (_transcript : String) : Option String :=
  try_google_gemini_go net (get_multiple_api_keys env "GOOGLE_API_KEY") 0

/- ### Hosted chat adapters (src/summarizer.py lines 92-178) -/

/-- Outcome of the single outbound HTTP exchange of a chat adapter: a
response with its status code and (for status 200) the extracted answer
text, or an exception inside the `try` block (transport faults and
malformed-response-shape errors both surface this way). -/
inductive NetOutcome where
  | resp (status : Nat) (answer : String)
  | fault (msg : String)
deriving DecidableEq

/-- Translation of `try_openai_gpt` (src/summarizer.py lines 92-136):
absent or empty `OPENAI_API_KEY` disables the adapter; otherwise one
request, with 200 / 429 / other-status / exception mapped exactly as the
source maps them. -/
def try_openai_gpt (env : List (String × String)) (net : NetOutcome)
    (_transcript : String) : Option String :=
  match envGet env "OPENAI_API_KEY" with
  | none => none
  | some key =>
      if key = "" then none
      else
        match net with
        | NetOutcome.resp status answer =>
            if status = 200 then some answer
            else if status = 429 then some "❌ OpenAI rate limit exceeded"
            else some ("❌ OpenAI error: " ++ toString status)
        | NetOutcome.fault msg => some ("❌ OpenAI error: " ++ msg)

/-- Translation of `try_anthropic_claude` (src/summarizer.py lines
138-178), same shape as the OpenAI adapter with its own strings. -/
def try_anthropic_claude (env : List (String × String)) (net : NetOutcome)
    (_transcript : String) : Option String :=
  match envGet env "ANTHROPIC_API_KEY" with
  | none => none
  | some key =>
      if key = "" then none
      else
        match net with
        | NetOutcome.resp status answer =>
            if status = 200 then some answer
            else if status = 429 then some "❌ Anthropic rate limit exceeded"
            else some ("❌ Anthropic error: " ++ toString status)
        | NetOutcome.fault msg => some ("❌ Anthropic error: " ++ msg)

/-- Outcome of the Hugging Face exchange: a response with status code, the
`summary_text` fields when the JSON body is a non-empty list (`items`), and
the stringified body (`raw`) used when it is not; or an exception. -/
inductive HFOutcome where
  | resp (status : Nat) (items : List String) (raw : String)
  | fault (msg : String)
deriving DecidableEq

/-- Translation of `try_huggingface` (src/summarizer.py lines 180-219):
absent or empty `HUGGINGFACE_API_KEY` disables the adapter; a 200 response
that is a non-empty list yields the first element's summary text, otherwise
the stringified body; 429 / other-status / exception as in the source. -/
def try_huggingface (env : List (String × String)) (net : HFOutcome)
    (_transcript : String) : Option String :=
  match envGet env "HUGGINGFACE_API_KEY" with
  | none => none
  | some key =>
      if key = "" then none
      else
        match net with
        | HFOutcome.resp status items raw =>
            if status = 200 then
              match items with
              | s :: _ => some s
              | [] => some raw
            else if status = 429 then some "❌ Hugging Face rate limit exceeded"
            else some ("❌ Hugging Face error: " ++ toString status)
        | HFOutcome.fault msg => some ("❌ Hugging Face error: " ++ msg)

/- ### Entry point (src/main.py lines 14-21) -/

/-- What the Streamlit page shows after the Summarize button is pressed:
either the validation warning or the rendered markdown result. -/
inductive UIOutput where
  | warning (msg : String)
  | rendered (markdown : String)
deriving DecidableEq

/-- Translation of the Summarize button handler (src/main.py lines 14-21),
instrumented with the number of provider-adapter invocations performed: a
blank transcript is rejected with the warning before `process_transcript`
is called, so with zero adapter invocations. -/
def summarize_button (B : ProviderBehavior) (transcript : String) :
    UIOutput × Nat :=
  if pyStrip transcript = "" then
    (UIOutput.warning "Please enter a meeting transcript.", 0)
  else
    (UIOutput.rendered (process_transcript B transcript),
      (runLoopTrace transcript (providersOf B)).2)

/- ### Bounded retry wrapper (src/summarizer.py lines 319-342) -/

/-- Outcome of one full Orchestrator pass as seen by the retry wrapper's
`try` block: a returned string, or a raised exception with its message. -/
inductive PassOutcome where
  | res (s : String)
  | exn (msg : String)
deriving DecidableEq

/-- The attempt loop of `process_transcript_with_retry` (src/summarizer.py
lines 321-342).  `passF k` is the outcome of the `k`-th call of
`process_transcript` (the source re-runs the whole pass, whose outcome
varies between attempts through the external providers); `sleeps` counts
the `time.sleep(delay)` calls performed.  A quota-classified result sleeps
and retries while attempts remain and is returned as-is on the last
attempt; a non-quota result is returned at once; an exception sleeps and
retries while attempts remain, else yields the attempt-count diagnostic. -/
def retryLoop (passF : Nat → PassOutcome) (max_retries : Nat)
    (attempt sleeps : Nat) : String × Nat :=
  if _h : attempt < max_retries then
    match passF attempt with
    | PassOutcome.res result =>
        if is_quota_error (some result) then
          if attempt < max_retries - 1 then
            retryLoop passF max_retries (attempt + 1) (sleeps + 1)
          else (result, sleeps)
        else (result, sleeps)
    | PassOutcome.exn msg =>
        if attempt < max_retries - 1 then
          retryLoop passF max_retries (attempt + 1) (sleeps + 1)
        else
          ("❌ Error after " ++ toString max_retries ++ " attempts: " ++ msg,
            sleeps)
  else ("❌ Maximum retry attempts reached.", sleeps)
termination_by max_retries - attempt
decreasing_by all_goals omega

/-- Translation of `process_transcript_with_retry` (src/summarizer.py lines
319-342), paired with the number of sleeps performed. -/
def process_transcript_with_retry (passF : Nat → PassOutcome)
    (max_retries : Nat) : String × Nat :=
  retryLoop passF max_retries 0 0

/- ### Helper lemmas -/

set_option maxRecDepth 100000

theorem startsWithChars_iff (p l : List Char) :
    startsWithChars p l = true ↔ p <+: l := by
  induction p generalizing l with
  | nil => simp [startsWithChars]
  | cons a as ih =>
    cases l with
    | nil => simp [startsWithChars]
    | cons b bs =>
      simp only [startsWithChars, Bool.and_eq_true, decide_eq_true_eq, ih,
        List.cons_prefix_cons]

theorem occursInChars_iff (p l : List Char) :
    occursInChars p l = true ↔ p <:+: l := by
  induction l with
  | nil => simp [occursInChars, startsWithChars_iff, List.infix_iff_prefix_suffix]
  | cons c cs ih =>
    simp only [occursInChars, Bool.or_eq_true, startsWithChars_iff, ih]
    constructor
    · rintro (h | h)
      · exact h.isInfix
      · rcases h with ⟨s, t, hst⟩
        exact ⟨c :: s, t, by simp [hst]⟩
    · intro h
      rcases h with ⟨s, t, hst⟩
      cases s with
      | nil => left; exact ⟨t, by simpa using hst⟩
      | cons x xs =>
        right
        refine ⟨xs, t, ?_⟩
        have h2 : x = c ∧ xs ++ (p ++ t) = cs := by simpa using hst
        simpa [List.append_assoc] using h2.2

theorem containsSub_of_infix {s pat : String} (h : pat.toList <:+: s.toList) :
    containsSub s pat = true := by
  simpa [containsSub, occursInChars_iff] using h

theorem strToList_append (a b : String) : (a ++ b).toList = a.toList ++ b.toList := rfl

theorem lowerStr_toList (s : String) : (lowerStr s).toList = s.toList.map lowerChar := rfl

/-- The word "quota" occurs in the lowered demo report, whatever the word
count: it sits inside the fixed template text `demoPart2`. -/
theorem demoReport_contains_quota (n : Nat) :
    containsSub (lowerStr (demoReport n)) "quota" = true := by
  apply containsSub_of_infix
  have hpart : "quota".toList <:+: demoPart2.toList.map lowerChar := by
    rw [← occursInChars_iff]
    decide
  refine hpart.trans ⟨(demoPart1.toList ++ (toString n).toList).map lowerChar,
    ((toString n).toList ++ demoPart3.toList ++ (formatFixed1 n 200).toList ++
      demoPart4.toList).map lowerChar, ?_⟩
  simp only [lowerStr_toList, demoReport, strToList_append, List.map_append,
    List.append_assoc]

theorem demoReport_ne_empty (n : Nat) : demoReport n ≠ "" := by
  intro h
  have h2 : (demoReport n).toList = [] := by rw [h]; rfl
  have h3 : (demoReport n).toList =
      demoPart1.toList ++ ((toString n).toList ++ (demoPart2.toList ++
        ((toString n).toList ++ (demoPart3.toList ++
          ((formatFixed1 n 200).toList ++ demoPart4.toList))))) := by
    simp [demoReport, strToList_append, List.append_assoc]
  rw [h3] at h2
  rcases List.append_eq_nil.1 h2 with ⟨h4, _⟩
  exact absurd h4 (by decide)

/-- The demo report is always classified as a quota condition. -/
theorem demoReport_quota (n : Nat) :
    is_quota_error (some (demoReport n)) = true := by
  have h1 : is_quota_error (some (demoReport n)) =
      if demoReport n = "" then false
      else quota_indicators.any
        (fun ind => containsSub (lowerStr (demoReport n)) ind) := rfl
  rw [h1, if_neg (demoReport_ne_empty n)]
  simp only [quota_indicators, List.any_cons, List.any_nil,
    demoReport_contains_quota n, Bool.true_or]

theorem runLoopTrace_cons (t : String) (f : String → PResult)
    (fs : List (String → PResult)) :
    runLoopTrace t (f :: fs) =
      match f t with
      | PResult.exn => ((runLoopTrace t fs).1, (runLoopTrace t fs).2 + 1)
      | PResult.ok v =>
          if truthyOpt v && !is_quota_error v then (v, 1)
          else ((runLoopTrace t fs).1, (runLoopTrace t fs).2 + 1) := rfl

theorem runLoopTrace_cons_usable (t : String) (f : String → PResult)
    (fs : List (String → PResult)) (h : usableOutcome (f t) = true) :
    runLoopTrace t (f :: fs) = (resultValue (f t), 1) := by
  rw [runLoopTrace_cons]
  cases hf : f t with
  | exn => rw [hf] at h; exact absurd h (by simp [usableOutcome])
  | ok v =>
    rw [hf] at h
    have h2 : (truthyOpt v && !is_quota_error v) = true := by
      simpa [usableOutcome] using h
    simp only [h2, if_true, resultValue]

theorem runLoopTrace_cons_skip (t : String) (f : String → PResult)
    (fs : List (String → PResult)) (h : usableOutcome (f t) = false) :
    runLoopTrace t (f :: fs) = ((runLoopTrace t fs).1, (runLoopTrace t fs).2 + 1) := by
  rw [runLoopTrace_cons]
  cases hf : f t with
  | exn => rfl
  | ok v =>
    rw [hf] at h
    have h2 : (truthyOpt v && !is_quota_error v) = false := by
      simpa [usableOutcome] using h
    simp only [h2, Bool.false_eq_true, if_false]

theorem runLoopTrace_fst_eq_firstUsable (t : String)
    (fs : List (String → PResult)) :
    (runLoopTrace t fs).1 = firstUsable t fs := by
  induction fs with
  | nil => rfl
  | cons f fs ih =>
    by_cases h : usableOutcome (f t) = true
    · rw [runLoopTrace_cons_usable t f fs h, firstUsable]
      simp [h]
    · rw [runLoopTrace_cons_skip t f fs (by simpa using h), firstUsable]
      simp [h, ih]

theorem runLoopTrace_some_usable (t : String) (fs : List (String → PResult))
    (s : String) (h : (runLoopTrace t fs).1 = some s) :
    s ≠ "" ∧ is_quota_error (some s) = false := by
  induction fs with
  | nil => simp [runLoopTrace] at h
  | cons f fs ih =>
    by_cases hu : usableOutcome (f t) = true
    · rw [runLoopTrace_cons_usable t f fs hu] at h
      cases hf : f t with
      | exn => rw [hf] at hu; simp [usableOutcome] at hu
      | ok v =>
        rw [hf] at h hu
        unfold usableOutcome at hu
        simp only [resultValue] at h
        subst h
        simp only [Bool.and_eq_true, Bool.not_eq_true'] at hu
        exact ⟨by simpa [truthyOpt] using hu.1, hu.2⟩
    · rw [runLoopTrace_cons_skip t f fs (by simpa using hu)] at h
      exact ih h

theorem usableOutcome_false_iff (r : PResult) :
    usableOutcome r = false ↔
      (r = PResult.exn ∨ r = PResult.ok none ∨ r = PResult.ok (some "") ∨
        ∃ s, r = PResult.ok (some s) ∧ is_quota_error (some s) = true) := by
  cases r with
  | exn => simp [usableOutcome]
  | ok v =>
    cases v with
    | none => simp [usableOutcome, truthyOpt]
    | some s =>
      by_cases hs : s = ""
      · subst hs
        simp [usableOutcome, truthyOpt]
      · simp [usableOutcome, truthyOpt, hs]

theorem is_quota_error_some (s : String) :
    is_quota_error (some s) =
      quota_indicators.any (fun ind => containsSub (lowerStr s) ind) := by
  by_cases hs : s = ""
  · subst hs; decide
  · have h1 : is_quota_error (some s) =
        if s = "" then false
        else quota_indicators.any (fun ind => containsSub (lowerStr s) ind) := rfl
    rw [h1, if_neg hs]

/- ### Concrete behaviors used by the witnesses -/

/-- An adapter that raises on every transcript. -/
def exnProvider : String → PResult := fun _ => PResult.exn

/-- An adapter that returns the fixed string `s` on every transcript. -/
def okProvider (s : String) : String → PResult := fun _ => PResult.ok (some s)

/-- An adapter that returns `None` on every transcript. -/
def noneProvider : String → PResult := fun _ => PResult.ok none

/-- A behavior with one raising, one disabled, one quota-limited and one
succeeding hosted adapter. -/
def behaviorA : ProviderBehavior :=
  ⟨exnProvider, noneProvider, okProvider "❌ Anthropic rate limit exceeded",
    okProvider "Summary: all good"⟩

/-- The behavior in which every hosted adapter raises. -/
def behaviorAllExn : ProviderBehavior :=
  ⟨exnProvider, exnProvider, exnProvider, exnProvider⟩

/- ### The claims -/

/-- C1: the orchestrator tries the providers in the fixed order
google_gemini, openai_gpt, anthropic_claude, huggingface, demo; a provider
whose outcome is a non-empty, non-quota-classified string is returned
immediately with exactly one invocation performed at its position (so no
later provider is invoked); an absent/empty value, a quota-classified value,
or a raised exception — and only these — advances the loop to the next
provider; the loop altogether returns the first usable provider value; and
when every provider is exhausted without a usable result,
`process_transcript_demo transcript` is returned. -/
theorem orchestrator_fallback_chain (B : ProviderBehavior) (t : String) :
    providersOf B =
      [B.google, B.openai, B.anthropic, B.huggingface, demoProvider] ∧
    (∀ (f : String → PResult) (fs : List (String → PResult)) (s : String),
      f t = PResult.ok (some s) → s ≠ "" → is_quota_error (some s) = false →
      runLoopTrace t (f :: fs) = (some s, 1)) ∧
    (∀ (f : String → PResult) (fs : List (String → PResult)),
      usableOutcome (f t) = false →
      runLoopTrace t (f :: fs) =
        ((runLoopTrace t fs).1, (runLoopTrace t fs).2 + 1)) ∧
    (∀ r : PResult, usableOutcome r = false ↔
      (r = PResult.exn ∨ r = PResult.ok none ∨ r = PResult.ok (some "") ∨
        ∃ s, r = PResult.ok (some s) ∧ is_quota_error (some s) = true)) ∧
    (runLoopTrace t (providersOf B)).1 = firstUsable t (providersOf B) ∧
    ((runLoopTrace t (providersOf B)).1 = none →
      process_transcript B t = process_transcript_demo t) := by
  refine ⟨rfl, ?_, ?_, usableOutcome_false_iff,
    runLoopTrace_fst_eq_firstUsable t (providersOf B), ?_⟩
  · intro f fs s hf hs hq
    have hu : usableOutcome (f t) = true := by
      rw [hf]; simp [usableOutcome, truthyOpt, hs, hq]
    rw [runLoopTrace_cons_usable t f fs hu, hf]
    rfl
  · intro f fs h
    exact runLoopTrace_cons_skip t f fs h
  · intro h
    simp [process_transcript, h]

/-- Witness for C1: with a succeeding provider at the head of the list the
loop returns its value after exactly one invocation; with a raising provider
at the head the loop advances past it. -/
theorem orchestrator_fallback_chain_witness :
    runLoopTrace "team sync" (okProvider "Summary: all good" :: [exnProvider]) =
      (some "Summary: all good", 1) ∧
    runLoopTrace "team sync" (exnProvider :: [okProvider "Summary: all good"]) =
      ((runLoopTrace "team sync" [okProvider "Summary: all good"]).1,
        (runLoopTrace "team sync" [okProvider "Summary: all good"]).2 + 1) ∧
    process_transcript behaviorAllExn "team sync" =
      process_transcript_demo "team sync" :=
  ⟨(orchestrator_fallback_chain behaviorA "team sync").2.1
      (okProvider "Summary: all good") [exnProvider] "Summary: all good"
      rfl (by decide) (by decide),
   (orchestrator_fallback_chain behaviorA "team sync").2.2.1
      exnProvider [okProvider "Summary: all good"] (by decide),
   (orchestrator_fallback_chain behaviorAllExn "team sync").2.2.2.2.2
      (by decide)⟩

/-- C2: `process_transcript` never propagates an adapter exception outward:
an exception outcome makes the loop advance to the next provider, and for
every adapter behavior and every transcript the call returns a string that
is either a usable (non-empty, non-quota-classified) provider result or the
Local Fallback Generator's output. -/
theorem orchestrator_never_raises (B : ProviderBehavior) (t : String) :
    (∀ (f : String → PResult) (fs : List (String → PResult)),
      f t = PResult.exn →
      runLoopTrace t (f :: fs) =
        ((runLoopTrace t fs).1, (runLoopTrace t fs).2 + 1)) ∧
    (process_transcript B t = process_transcript_demo t ∨
      ∃ s, process_transcript B t = s ∧ s ≠ "" ∧
        is_quota_error (some s) = false) := by
  constructor
  · intro f fs hf
    exact runLoopTrace_cons_skip t f fs (by rw [hf]; rfl)
  · cases hr : (runLoopTrace t (providersOf B)).1 with
    | none => left; simp [process_transcript, hr]
    | some s =>
      right
      exact ⟨s, by simp [process_transcript, hr],
        (runLoopTrace_some_usable t (providersOf B) s hr).1,
        (runLoopTrace_some_usable t (providersOf B) s hr).2⟩

/-- Witness for C2: a raising head provider is skipped, with the loop
continuing on the tail. -/
theorem orchestrator_never_raises_witness :
    runLoopTrace "standup" (exnProvider :: []) =
      ((runLoopTrace "standup" []).1, (runLoopTrace "standup" []).2 + 1) :=
  (orchestrator_never_raises behaviorA "standup").1 exnProvider [] rfl

/-- C3: the quota classifier returns false on an absent input; on a string
input it is exactly the case-insensitive substring search for the five
marker phrases; and it answers as documented on the five literal examples. -/
theorem quota_classifier_contract :
    is_quota_error none = false ∧
    (∀ s : String, is_quota_error (some s) =
      quota_indicators.any (fun ind => containsSub (lowerStr s) ind)) ∧
    (∀ s : String, is_quota_error (some s) = true ↔
      ∃ ind ∈ quota_indicators, containsSub (lowerStr s) ind = true) ∧
    is_quota_error (some "Quota exceeded") = true ∧
    is_quota_error (some "HTTP 429") = true ∧
    is_quota_error (some "Rate Limit hit") = true ∧
    is_quota_error (some "limit EXCEEDED") = true ∧
    is_quota_error (some "Summary: the team agreed on X") = false := by
  refine ⟨rfl, is_quota_error_some, ?_, by decide, by decide, by decide,
    by decide, by decide⟩
  intro s
  rw [is_quota_error_some]
  simp [List.any_eq_true]

/-- C4 (counterexample): the claim that the Local Fallback Generator's
output is never classified as a quota condition fails at the concrete
transcript "hello": the demo report's fixed text contains "quota", so
`is_quota_error` returns true on it. -/
theorem demo_never_quota_counterexample :
    is_quota_error (some (process_transcript_demo "hello")) = true := by
  decide

/-- C4 (amended): for every non-blank transcript the demo output IS
quota-classified — its fixed template text contains "quota" — so as the
last in-loop provider it is skipped rather than accepted as usable; the
orchestrator nevertheless still returns `process_transcript_demo transcript`
through the unconditional fallback after the loop.  Only for a blank
transcript is the demo output not quota-classified. -/
theorem demo_output_quota_classified (B : ProviderBehavior) (t : String) :
    (pyStrip t ≠ "" →
      is_quota_error (some (process_transcript_demo t)) = true) ∧
    (pyStrip t ≠ "" → usableOutcome (demoProvider t) = false) ∧
    (pyStrip t = "" →
      is_quota_error (some (process_transcript_demo t)) = false) ∧
    ((runLoopTrace t (providersOf B)).1 = none →
      process_transcript B t = process_transcript_demo t) := by
  refine ⟨?_, ?_, ?_, ?_⟩
  · intro h
    unfold process_transcript_demo
    rw [if_neg h]
    exact demoReport_quota _
  · intro h
    have hq : is_quota_error (some (process_transcript_demo t)) = true := by
      unfold process_transcript_demo
      rw [if_neg h]
      exact demoReport_quota _
    simp [demoProvider, usableOutcome, truthyOpt, hq]
  · intro h
    unfold process_transcript_demo
    rw [if_pos h]
    decide
  · intro h
    simp [process_transcript, h]

/-- Witness for C4 (amended), at the transcripts "standup notes" (non-blank)
and " " (blank), with every hosted adapter raising. -/
theorem demo_output_quota_classified_witness :
    is_quota_error (some (process_transcript_demo "standup notes")) = true ∧
    usableOutcome (demoProvider "standup notes") = false ∧
    is_quota_error (some (process_transcript_demo " ")) = false ∧
    process_transcript behaviorAllExn "standup notes" =
      process_transcript_demo "standup notes" :=
  ⟨(demo_output_quota_classified behaviorAllExn "standup notes").1 (by decide),
   (demo_output_quota_classified behaviorAllExn "standup notes").2.1 (by decide),
   (demo_output_quota_classified behaviorAllExn " ").2.2.1 (by decide),
   (demo_output_quota_classified behaviorAllExn "standup notes").2.2.2 (by decide)⟩

/-- C5: a blank or whitespace-only transcript is rejected at the boundary
with the validation warning, before `process_transcript` runs: zero
provider-adapter invocations are performed. -/
theorem blank_transcript_rejected (B : ProviderBehavior) (t : String)
    (h : pyStrip t = "") :
    summarize_button B t =
      (UIOutput.warning "Please enter a meeting transcript.", 0) := by
  simp [summarize_button, h]

/-- Witness for C5 at the whitespace-only transcript " \t\n ". -/
theorem blank_transcript_rejected_witness :
    summarize_button behaviorA " \t\n " =
      (UIOutput.warning "Please enter a meeting transcript.", 0) :=
  blank_transcript_rejected behaviorA " \t\n " (by decide)

/-- C6 (counterexample): the claim that every adapter returns absent when
its credential is missing fails for google_gemini: with an empty
environment (no GOOGLE_API_KEY at all) it returns the diagnostic string,
not `none`. -/
theorem absent_credential_counterexample :
    try_google_gemini [] (fun _ => GemOutcome.err "boom") "hello" ≠ none := by
  decide

/-- C6 (amended): the openai_gpt, anthropic_claude and huggingface adapters
return absent (`None`) when their credential is unset (or set to the empty
string, which Python treats as unconfigured); the google_gemini adapter
instead returns its exhaustion diagnostic when its credential set is empty —
a string that is quota-classified, so the orchestrator skips the provider
all the same. -/
theorem adapters_absent_credential (env : List (String × String))
    (t : String) :
    (∀ net, envGet env "OPENAI_API_KEY" = none →
      try_openai_gpt env net t = none) ∧
    (∀ net, envGet env "OPENAI_API_KEY" = some "" →
      try_openai_gpt env net t = none) ∧
    (∀ net, envGet env "ANTHROPIC_API_KEY" = none →
      try_anthropic_claude env net t = none) ∧
    (∀ net, envGet env "ANTHROPIC_API_KEY" = some "" →
      try_anthropic_claude env net t = none) ∧
    (∀ net, envGet env "HUGGINGFACE_API_KEY" = none →
      try_huggingface env net t = none) ∧
    (∀ net, envGet env "HUGGINGFACE_API_KEY" = some "" →
      try_huggingface env net t = none) ∧
    (∀ gnet, get_multiple_api_keys env "GOOGLE_API_KEY" = [] →
      try_google_gemini env gnet t = some geminiExhaustedMsg ∧
      is_quota_error (some geminiExhaustedMsg) = true) := by
  refine ⟨?_, ?_, ?_, ?_, ?_, ?_, ?_⟩
  · intro net h; simp [try_openai_gpt, h]
  · intro net h; simp [try_openai_gpt, h]
  · intro net h; simp [try_anthropic_claude, h]
  · intro net h; simp [try_anthropic_claude, h]
  · intro net h; simp [try_huggingface, h]
  · intro net h; simp [try_huggingface, h]
  · intro gnet h
    refine ⟨?_, by decide⟩
    unfold try_google_gemini
    rw [h]
    rfl

/-- Witness for C6 (amended), at the empty environment. -/
theorem adapters_absent_credential_witness :
    try_openai_gpt [] (NetOutcome.fault "timeout") "hi" = none ∧
    try_anthropic_claude [] (NetOutcome.fault "timeout") "hi" = none ∧
    try_huggingface [] (HFOutcome.fault "timeout") "hi" = none ∧
    (try_google_gemini [] (fun _ => GemOutcome.err "boom") "hi" =
      some geminiExhaustedMsg ∧
     is_quota_error (some geminiExhaustedMsg) = true) :=
  ⟨(adapters_absent_credential [] "hi").1 (NetOutcome.fault "timeout") rfl,
   (adapters_absent_credential [] "hi").2.2.1 (NetOutcome.fault "timeout") rfl,
   (adapters_absent_credential [] "hi").2.2.2.2.1 (HFOutcome.fault "timeout") rfl,
   (adapters_absent_credential [] "hi").2.2.2.2.2.2
      (fun _ => GemOutcome.err "boom") (by decide)⟩

/-- C7: credential enumeration reads BASE and then the contiguous suffixes
BASE_1, BASE_2, ... and stops at the first missing one, so a key past a gap
is never included: with BASE and BASE_1 set (non-empty) and BASE_2 absent
the discovered set is exactly the values of BASE and BASE_1, whatever else
(such as BASE_3) the environment holds; and the suffix scan yields nothing
when started at any index whose variable is absent. -/
theorem credential_scan_stops_at_gap (env : List (String × String))
    (v v1 : String) (hv : envGet env "BASE" = some v) (hvne : v ≠ "")
    (h1 : envGet env "BASE_1" = some v1) (h1ne : v1 ≠ "")
    (h2 : envGet env "BASE_2" = none) :
    get_multiple_api_keys env "BASE" = [v, v1] ∧
    (∀ (base : String) (i fuel : Nat),
      envGet env (base ++ "_" ++ toString i) = none →
      collectSuffixKeys env base fuel i = []) := by
  have hgap : ∀ (base : String) (i fuel : Nat),
      envGet env (base ++ "_" ++ toString i) = none →
      collectSuffixKeys env base fuel i = [] := by
    intro base i fuel hnone
    cases fuel with
    | zero => rfl
    | succ m => simp [collectSuffixKeys, hnone]
  refine ⟨?_, hgap⟩
  have e1 : ("BASE" ++ "_" ++ toString (1 : Nat) : String) = "BASE_1" := rfl
  have e2 : ("BASE" ++ "_" ++ toString (2 : Nat) : String) = "BASE_2" := rfl
  have hc1 : collectSuffixKeys env "BASE" (env.length + 1) 1 = [v1] := by
    have step : collectSuffixKeys env "BASE" (env.length + 1) 1 =
        v1 :: collectSuffixKeys env "BASE" env.length 2 := by
      simp only [collectSuffixKeys]
      rw [e1, h1]
      simp [h1ne]
    rw [step, hgap "BASE" 2 env.length (by rw [e2]; exact h2)]
  simp [get_multiple_api_keys, hv, hvne, hc1]

/-- Witness for C7 at the environment BASE=alpha, BASE_1=beta, BASE_3=gamma:
the scan returns exactly [alpha, beta], skipping gamma past the gap. -/
theorem credential_scan_stops_at_gap_witness :
    get_multiple_api_keys
      [("BASE", "alpha"), ("BASE_1", "beta"), ("BASE_3", "gamma")] "BASE" =
      ["alpha", "beta"] ∧
    collectSuffixKeys
      [("BASE", "alpha"), ("BASE_1", "beta"), ("BASE_3", "gamma")] "BASE" 4 2 =
      [] :=
  ⟨(credential_scan_stops_at_gap
      [("BASE", "alpha"), ("BASE_1", "beta"), ("BASE_3", "gamma")]
      "alpha" "beta" (by decide) (by decide) (by decide) (by decide)
      (by decide)).1,
   (credential_scan_stops_at_gap
      [("BASE", "alpha"), ("BASE_1", "beta"), ("BASE_3", "gamma")]
      "alpha" "beta" (by decide) (by decide) (by decide) (by decide)
      (by decide)).2 "BASE" 2 4 (by decide)⟩

/-- C8: the Gemini adapter walks its credential set in order: the first
successful generation call with non-empty text is returned immediately; a
credential whose call raises — whether the message matches the 429/quota
pattern or not — is treated identically, advancing to the next credential
without returning; and when every credential is exhausted the adapter
returns the fixed diagnostic, which contains the word "quota", is
quota-classified, and therefore makes the orchestrator loop advance to the
next provider. -/
theorem gemini_key_rotation (net : Nat → GemOutcome) (i : Nat) :
    (∀ (key : String) (rest : List String) (s : String), key ≠ "" →
      net i = GemOutcome.text s → s ≠ "" →
      try_google_gemini_go net (key :: rest) i = some s) ∧
    (∀ (key : String) (rest : List String) (msg : String), key ≠ "" →
      net i = GemOutcome.err msg →
      try_google_gemini_go net (key :: rest) i =
        try_google_gemini_go net rest (i + 1)) ∧
    try_google_gemini_go net [] i = some geminiExhaustedMsg ∧
    containsSub (lowerStr geminiExhaustedMsg) "quota" = true ∧
    is_quota_error (some geminiExhaustedMsg) = true ∧
    (∀ (t : String) (fs : List (String → PResult)) (f : String → PResult),
      f t = PResult.ok (some geminiExhaustedMsg) →
      runLoopTrace t (f :: fs) =
        ((runLoopTrace t fs).1, (runLoopTrace t fs).2 + 1)) := by
  refine ⟨?_, ?_, rfl, by decide, by decide, ?_⟩
  · intro key rest s hk hnet hs
    simp [try_google_gemini_go, hk, hnet, hs]
  · intro key rest msg hk hnet
    simp [try_google_gemini_go, hk, hnet]
  · intro t fs f hf
    exact runLoopTrace_cons_skip t f fs (by rw [hf]; decide)

/-- The per-key call outcomes used by the C8 witness: the first key hits a
quota error, the second succeeds. -/
def gemNetA : Nat → GemOutcome :=
  fun i => if i = 0 then GemOutcome.err "429 You exceeded your current quota"
    else GemOutcome.text "Summary: from key two"

/-- Witness for C8: a quota-erroring first key advances to the second key,
whose successful text is returned. -/
theorem gemini_key_rotation_witness :
    try_google_gemini_go gemNetA ["k0", "k1"] 0 =
      try_google_gemini_go gemNetA ["k1"] 1 ∧
    try_google_gemini_go gemNetA ["k1"] 1 = some "Summary: from key two" :=
  ⟨(gemini_key_rotation gemNetA 0).2.1 "k0" ["k1"]
      "429 You exceeded your current quota" (by decide) (by decide),
   (gemini_key_rotation gemNetA 1).1 "k1" [] "Summary: from key two"
      (by decide) (by decide) (by decide)⟩

/-- C9: with maxAttempts = 3 and the first two Orchestrator passes
quota-classified, the retry wrapper sleeps exactly once after each of those
two passes and returns the third pass's result with no third sleep — and
since the third result is unconstrained here, this covers both the
usable-third-pass scenario and the all-passes-quota scenario, in which the
last pass's result is returned as-is. -/
theorem retry_wrapper_three_attempts (passF : Nat → PassOutcome)
    (r0 r1 r2 : String)
    (h0 : passF 0 = PassOutcome.res r0) (hq0 : is_quota_error (some r0) = true)
    (h1 : passF 1 = PassOutcome.res r1) (hq1 : is_quota_error (some r1) = true)
    (h2 : passF 2 = PassOutcome.res r2) :
    process_transcript_with_retry passF 3 = (r2, 2) := by
  have s0 : retryLoop passF 3 0 0 = retryLoop passF 3 1 1 := by
    rw [retryLoop]
    simp [h0, hq0]
  have s1 : retryLoop passF 3 1 1 = retryLoop passF 3 2 2 := by
    rw [retryLoop]
    simp [h1, hq1]
  have s2 : retryLoop passF 3 2 2 = (r2, 2) := by
    rw [retryLoop]
    cases hq2 : is_quota_error (some r2) <;> simp [h2, hq2]
  unfold process_transcript_with_retry
  rw [s0, s1, s2]

/-- The pass outcomes used by the C9 witness: two quota-classified passes
followed by a usable one. -/
def passSeqA : Nat → PassOutcome :=
  fun i => if i < 2 then PassOutcome.res "❌ OpenAI rate limit exceeded"
    else PassOutcome.res "Summary: decisions and action items"

/-- Witness for C9: the wrapper sleeps twice and returns the third pass's
usable result. -/
theorem retry_wrapper_three_attempts_witness :
    process_transcript_with_retry passSeqA 3 =
      ("Summary: decisions and action items", 2) :=
  retry_wrapper_three_attempts passSeqA
    "❌ OpenAI rate limit exceeded" "❌ OpenAI rate limit exceeded"
    "Summary: decisions and action items"
    (by decide) (by decide) (by decide) (by decide) (by decide)

/-- C10: `process_transcript_demo` is total by construction (a Lean `def`
on all of `String`), and on any non-blank transcript of exactly 400
whitespace-separated words its report is the fixed template at word count
400, embedding "**Transcript Length:** 400 words" and an estimated reading
time of "2.0" minutes, the rendering of 400 / 200 to one decimal place. -/
theorem demo_report_400_words (t : String) (hne : pyStrip t ≠ "")
    (hwc : (pySplit t).length = 400) :
    process_transcript_demo t = demoReport 400 ∧
    containsSub (process_transcript_demo t)
      "**Transcript Length:** 400 words" = true ∧
    containsSub (process_transcript_demo t)
      "**Estimated Reading Time:** 2.0 minutes" = true ∧
    formatFixed1 400 200 = "2.0" := by
  have hd : process_transcript_demo t = demoReport 400 := by
    unfold process_transcript_demo
    rw [if_neg hne, hwc]
  exact ⟨hd, by rw [hd]; decide, by rw [hd]; decide, by decide⟩

/-- A transcript of exactly 400 whitespace-separated words. -/
def transcript400 : String := String.intercalate " " (List.replicate 400 "a")

/-- Witness for C10 at a concrete 400-word transcript. -/
theorem demo_report_400_words_witness :
    process_transcript_demo transcript400 = demoReport 400 ∧
    containsSub (process_transcript_demo transcript400)
      "**Transcript Length:** 400 words" = true ∧
    containsSub (process_transcript_demo transcript400)
      "**Estimated Reading Time:** 2.0 minutes" = true ∧
    formatFixed1 400 200 = "2.0" :=
  demo_report_400_words transcript400 (by decide) (by decide)
